import Mathlib

/-!
Verification of the products router of a RESTful Express server
(`src/routes/products.js`).

The router consists of one validation middleware (`validateProduct`) and
five route handlers (GET `/`, GET `/:id`, POST `/`, PUT `/:id`,
DELETE `/:id`), each of which delegates to a data-access collaborator
(`productModel`) inside a try/catch and maps the outcome to an HTTP
response.

Modelling choices:
* Request-body fields hold JavaScript/JSON scalar values (`JVal`):
  `undefined`, `null`, booleans, numbers (as `Rat`; `NaN`, infinities
  and `-0` are not represented — `NaN` and `-0` are falsy and would be
  rejected by the `!price` guard exactly as `jnum 0` is), and strings.
  Arrays and objects are not modelled; like truthy numbers and booleans
  they have no `.trim` method, a case the model covers already.
* `v.trim()` on a truthy non-string throws a `TypeError`; the middleware
  has no try/catch, so the exception escapes it.  This is modelled by
  `Except Unit`.
* `ToNumber` on strings (`strToNumber`) handles optional surrounding
  whitespace, an optional sign, and decimal literals with an optional
  fractional part; hexadecimal, exponent and `Infinity` literals are not
  modelled.  `none` encodes `NaN`.
* The collaborator is external; each handler is a function of the
  collaborator call's outcome (`DbOutcome`: normal return, or a thrown
  error of arbitrary content).  The POST/PUT handlers also return the
  list of request bodies passed to the collaborator, so that "the
  collaborator was never invoked" and "the body is forwarded unchanged"
  are expressible.
-/

namespace ProductsRouter

/-- A JavaScript/JSON scalar value, as a parsed request-body field. -/
inductive JVal where
  | jundef
  | jnull
  | jbool (b : Bool)
  | jnum (q : Rat)
  | jstr (s : String)
deriving DecidableEq, Repr

/-- JavaScript truthiness of a scalar value (`!v` negates this). -/
def jsTruthy : JVal → Bool
  | .jundef => false
  | .jnull => false
  | .jbool b => b
  | .jnum q => decide (q ≠ 0)
  | .jstr s => decide (s ≠ "")

/-- Numeric value of a list of decimal digits. -/
def digitsVal (cs : List Char) : Nat :=
  cs.foldl (fun a c => a * 10 + (c.toNat - 48)) 0

/-- JavaScript `WhiteSpace`/`LineTerminator` characters, as stripped by
`String.prototype.trim` and by `ToNumber` on strings: the ASCII ones
plus NBSP and the BOM (other Unicode space separators are not
modelled). -/
def jsWhitespaceChar (c : Char) : Bool :=
  c == ' ' || c == '\t' || c == '\n' || c == '\r' ||
    c == '\x0B' || c == '\x0C' || c == Char.ofNat 0xA0 || c == Char.ofNat 0xFEFF

/-- JavaScript string trimming, `s.trim()`: the string with leading and
trailing JavaScript whitespace removed. -/
def jsTrimString (s : String) : String :=
  ⟨((s.data.dropWhile jsWhitespaceChar).reverse.dropWhile jsWhitespaceChar).reverse⟩

/-- JavaScript `ToNumber` on a string: surrounding whitespace is ignored,
the empty string is `0`, otherwise an optionally signed decimal literal;
anything else is `NaN` (encoded `none`). -/
def strToNumber (s : String) : Option Rat :=
  let t := jsTrimString s
  if t = "" then some 0
  else
    let core : List Char → Option Rat := fun cs =>
      let ip := cs.takeWhile Char.isDigit
      match cs.dropWhile Char.isDigit with
      | [] => if ip.isEmpty then none else some (digitsVal ip)
      | '.' :: fr =>
        if fr.all Char.isDigit ∧ ¬(ip.isEmpty ∧ fr.isEmpty) then
          some ((digitsVal ip : Rat) + (digitsVal fr : Rat) / (10 : Rat) ^ fr.length)
        else none
      | _ => none
    match t.data with
    | '+' :: cs => core cs
    | '-' :: cs => (core cs).map (fun q => -q)
    | cs => core cs

/-- JavaScript `ToNumber` on a scalar value; `none` encodes `NaN`.
Used both by `isNaN(price)` and by the coercing comparison `price <= 0`. -/
def toNumber : JVal → Option Rat
  | .jundef => none
  | .jnull => some 0
  | .jbool b => some (if b then 1 else 0)
  | .jnum q => some q
  | .jstr s => strToNumber s

/-- Evaluation of `v.trim()`: returns the trimmed string when `v` is a
string, and throws a `TypeError` (`.error ()`) otherwise, since only
strings have a `trim` method. -/
def jsTrimMethod : JVal → Except Unit String
  | .jstr s => .ok (jsTrimString s)
  | _ => .error ()

def nameMsg : String := "Product name is required"
def priceMsg : String := "Product price must be a positive number"
def categoryMsg : String := "Product category is required"

/-- A parsed request body, restricted to the three fields the router
destructures: `const { name, price, category } = req.body`. -/
structure ReqBody where
  name : JVal
  price : JVal
  category : JVal
deriving DecidableEq, Repr

/-- The check `if (!name || name.trim() === '') errors.push(msg)`,
applied to `name` and to `category`.  Evaluating `.trim()` can throw;
the thrown exception propagates. -/
def checkTextField (v : JVal) (msg : String) : Except Unit (List String) :=
  if jsTruthy v = false then .ok [msg]
  else
    match jsTrimMethod v with
    | .error e => .error e
    | .ok t => if t = "" then .ok [msg] else .ok []

/-- The check `if (!price || isNaN(price) || price <= 0)
errors.push(priceMsg)`.  Both `isNaN` and the comparison with `0` coerce
via `ToNumber`; no step of this check can throw. -/
def checkPrice (v : JVal) : List String :=
  if jsTruthy v = false then [priceMsg]
  else
    match toNumber v with
    | none => [priceMsg]
    | some q => if q ≤ 0 then [priceMsg] else []

/-- The `errors` array accumulated by `validateProduct`, in source order
(name, then price, then category); `.error ()` when a `.trim()` call
threw before the array was complete. -/
def collectErrors (b : ReqBody) : Except Unit (List String) :=
  match checkTextField b.name nameMsg with
  | .error e => .error e
  | .ok e1 =>
    let e2 := checkPrice b.price
    match checkTextField b.category categoryMsg with
    | .error e => .error e
    | .ok e3 => .ok (e1 ++ e2 ++ e3)

/-- Outcome of the `validateProduct` middleware: an escaping exception, a
400 response carrying the error list, or falling through to `next()`. -/
inductive VResult where
  | vthrow
  | badRequest (errors : List String)
  | pass
deriving DecidableEq, Repr

/-- The `validateProduct` middleware: collect the violations; on a
non-empty list respond `400 { errors }`, otherwise call `next()`. -/
def validateProduct (b : ReqBody) : VResult :=
  match collectErrors b with
  | .error _ => .vthrow
  | .ok [] => .pass
  | .ok errs => .badRequest errs

/-- A product record as returned by the persistence collaborator. -/
structure Product where
  id : Nat
  name : String
  price : Rat
  category : String
deriving DecidableEq, Repr

/-- Outcome of one collaborator call: a normal return, or a thrown error
(whose content the handlers never inspect). -/
inductive DbOutcome (α : Type) where
  | ok (a : α)
  | thrown (err : String)
deriving DecidableEq

/-- Body of an HTTP response produced by the router. -/
inductive RespBody where
  | jsonList (ps : List Product)
  | jsonProduct (p : Product)
  | jsonError (msg : String)
  | jsonErrors (msgs : List String)
  | empty
deriving DecidableEq, Repr

/-- An HTTP response: status code and body. -/
structure Response where
  status : Nat
  body : RespBody
deriving DecidableEq, Repr

/-- Handler for `GET /products`: `res.json(products)` on success, 500
with a generic body when `getAllProducts()` throws. -/
def getAllProductsRoute (db : DbOutcome (List Product)) : Response :=
  match db with
  | .ok ps => ⟨200, .jsonList ps⟩
  | .thrown _ => ⟨500, .jsonError "Failed to retrieve products"⟩

/-- Handler for `GET /products/:id`: 404 when `getProductById` returns a
falsy value (absent), the product as JSON otherwise, 500 when it
throws. -/
def getProductByIdRoute (db : DbOutcome (Option Product)) : Response :=
  match db with
  | .ok none => ⟨404, .jsonError "Product not found"⟩
  | .ok (some p) => ⟨200, .jsonProduct p⟩
  | .thrown _ => ⟨500, .jsonError "Failed to retrieve product"⟩

/-- Handler for `POST /products`: `validateProduct` runs first; on `next()` the
handler calls `createProduct(req.body)` and answers 201 with the created
record, or 500 on a throw.  The second component records the bodies
passed to `createProduct`; `.error ()` is the middleware's exception
escaping the route. -/
def createProductRoute (b : ReqBody) (db : DbOutcome Product) :
    Except Unit (Response × List ReqBody) :=
  match validateProduct b with
  | .vthrow => .error ()
  | .badRequest errs => .ok (⟨400, .jsonErrors errs⟩, [])
  | .pass =>
    match db with
    | .ok p => .ok (⟨201, .jsonProduct p⟩, [b])
    | .thrown _ => .ok (⟨500, .jsonError "Failed to create product"⟩, [b])

/-- Handler for `PUT /products/:id`: `validateProduct` runs first; on `next()` the
handler calls `updateProduct(id, req.body)` and answers 404 when that is
falsy (absent), the updated record as JSON otherwise, 500 on a throw.
The second component records the bodies passed to `updateProduct`. -/
def updateProductRoute (b : ReqBody) (db : DbOutcome (Option Product)) :
    Except Unit (Response × List ReqBody) :=
  match validateProduct b with
  | .vthrow => .error ()
  | .badRequest errs => .ok (⟨400, .jsonErrors errs⟩, [])
  | .pass =>
    match db with
    | .ok none => .ok (⟨404, .jsonError "Product not found"⟩, [b])
    | .ok (some p) => .ok (⟨200, .jsonProduct p⟩, [b])
    | .thrown _ => .ok (⟨500, .jsonError "Failed to update product"⟩, [b])

/-- Handler for `DELETE /products/:id`: 404 when `deleteProduct` returns
falsy, 204 with an empty body (`res.status(204).end()`) on success, 500
on a throw. -/
def deleteProductRoute (db : DbOutcome Bool) : Response :=
  match db with
  | .ok false => ⟨404, .jsonError "Product not found"⟩
  | .ok true => ⟨204, .empty⟩
  | .thrown _ => ⟨500, .jsonError "Failed to delete product"⟩

/-- Modelled from the spec: the data-access collaborator
`productModel.deleteProduct` (`src/models/productModel.js` is not among
the sources; only its interface is specified).  The spec's contract is
`deleteProduct(id) → boolean success`, where success holds exactly when
the id is present in the store, in which case the record is removed.
The store is abstracted to the list of present ids. -/
def deleteProduct (st : List String) (id : String) : Bool × List String :=
  if id ∈ st then (true, st.filter (fun x => decide (x ≠ id))) else (false, st)

/-- Responses of two successive `DELETE /products/:id` requests for the
same id, against the modelled store. -/
def deleteTwice (st : List String) (id : String) : Response × Response :=
  let r1 := deleteProduct st id
  let r2 := deleteProduct r1.2 id
  (deleteProductRoute (.ok r1.1), deleteProductRoute (.ok r2.1))

/-- The validation rules exactly as the specification words them: the
name must be present and non-empty, the price must be a number that is
positive, the category must be present and non-empty.  Used only to
compare the specified rules against the implemented middleware. -/
def specRuleViolations (b : ReqBody) : List String :=
  (match b.name with
   | .jstr s => if s = "" then [nameMsg] else []
   | _ => [nameMsg]) ++
  (match b.price with
   | .jnum q => if q ≤ 0 then [priceMsg] else []
   | _ => [priceMsg]) ++
  (match b.category with
   | .jstr s => if s = "" then [categoryMsg] else []
   | _ => [categoryMsg])

/-- Declarative form of the implemented name/category check: the value is
falsy, or it is a string that trims to the empty string. -/
def textFieldInvalid (v : JVal) : Bool :=
  !jsTruthy v ||
    (match v with
     | .jstr s => decide (jsTrimString s = "")
     | _ => false)

/-- Declarative form of the implemented price check: the value is falsy,
or its numeric coercion is `NaN`, or that coercion is at most zero. -/
def priceFieldInvalid (v : JVal) : Bool :=
  !jsTruthy v ||
    (match toNumber v with
     | none => true
     | some q => decide (q ≤ 0))

/-- Field values on which the text check cannot throw: strings (which do
have a `trim` method) and falsy values (for which the check
short-circuits before calling `trim`). -/
def StringOrFalsy (v : JVal) : Prop := (∃ s, v = .jstr s) ∨ jsTruthy v = false

/-- The error list the middleware accumulates, in source order, written
declaratively. -/
def errsOf (b : ReqBody) : List String :=
  (if textFieldInvalid b.name then [nameMsg] else []) ++
    (if priceFieldInvalid b.price then [priceMsg] else []) ++
      (if textFieldInvalid b.category then [categoryMsg] else [])

/-- A request body all of whose fields satisfy the implemented rules. -/
def validBody : ReqBody := ⟨.jstr "Apple", .jnum 2, .jstr "Food"⟩

/-- A request body whose price is the numeric string "10". -/
def stringPriceBody : ReqBody := ⟨.jstr "Widget", .jstr "10", .jstr "Toys"⟩

/-- A request body with a truthy non-string name field. -/
def numericNameBody : ReqBody := ⟨.jnum 1, .jnum 5, .jstr "Toys"⟩

/-- A request body with a whitespace-only name and a truthy non-string
category. -/
def blankNameBody : ReqBody := ⟨.jstr " ", .jnum 5, .jnum 1⟩

/-- A sample record as the collaborator could return it. -/
def sampleProduct : Product := ⟨1, "Apple", 2, "Food"⟩

lemma checkTextField_eq (v : JVal) (msg : String) (h : StringOrFalsy v) :
    checkTextField v msg = .ok (if textFieldInvalid v then [msg] else []) := by
  rcases h with ⟨s, rfl⟩ | h
  · by_cases hs : s = ""
    · subst hs
      simp [checkTextField, textFieldInvalid, jsTruthy]
    · by_cases ht : jsTrimString s = "" <;>
        simp [checkTextField, textFieldInvalid, jsTruthy, jsTrimMethod, hs, ht]
  · simp [checkTextField, textFieldInvalid, h]

lemma checkPrice_eq (v : JVal) :
    checkPrice v = (if priceFieldInvalid v then [priceMsg] else []) := by
  by_cases h : jsTruthy v = false
  · simp [checkPrice, priceFieldInvalid, h]
  · have h1 : jsTruthy v = true := by revert h; cases jsTruthy v <;> simp
    cases hn : toNumber v with
    | none => simp [checkPrice, priceFieldInvalid, h1, hn]
    | some q => by_cases hq : q ≤ 0 <;> simp [checkPrice, priceFieldInvalid, h1, hn, hq]

lemma validateProduct_eq (b : ReqBody) (hn : StringOrFalsy b.name)
    (hc : StringOrFalsy b.category) :
    validateProduct b = if errsOf b = [] then .pass else .badRequest (errsOf b) := by
  unfold validateProduct collectErrors
  rw [checkTextField_eq b.name nameMsg hn, checkTextField_eq b.category categoryMsg hc,
    checkPrice_eq]
  unfold errsOf
  cases h1 : textFieldInvalid b.name <;> cases h2 : priceFieldInvalid b.price <;>
    cases h3 : textFieldInvalid b.category <;> simp

lemma errsOf_eq_nil_iff (b : ReqBody) :
    errsOf b = [] ↔
      (textFieldInvalid b.name = false ∧ priceFieldInvalid b.price = false ∧
        textFieldInvalid b.category = false) := by
  cases h1 : textFieldInvalid b.name <;> cases h2 : priceFieldInvalid b.price <;>
    cases h3 : textFieldInvalid b.category <;> simp [errsOf, h1, h2, h3]

lemma nameMsg_ne_priceMsg : nameMsg ≠ priceMsg := by decide
lemma nameMsg_ne_categoryMsg : nameMsg ≠ categoryMsg := by decide
lemma priceMsg_ne_categoryMsg : priceMsg ≠ categoryMsg := by decide

lemma mem_errsOf (b : ReqBody) :
    (nameMsg ∈ errsOf b ↔ textFieldInvalid b.name = true) ∧
    (priceMsg ∈ errsOf b ↔ priceFieldInvalid b.price = true) ∧
    (categoryMsg ∈ errsOf b ↔ textFieldInvalid b.category = true) ∧
    ∀ m ∈ errsOf b, m = nameMsg ∨ m = priceMsg ∨ m = categoryMsg := by
  cases h1 : textFieldInvalid b.name <;> cases h2 : priceFieldInvalid b.price <;>
    cases h3 : textFieldInvalid b.category <;>
      simp [errsOf, h1, h2, h3, nameMsg_ne_priceMsg, nameMsg_ne_categoryMsg,
        priceMsg_ne_categoryMsg, nameMsg_ne_priceMsg.symm, nameMsg_ne_categoryMsg.symm,
        priceMsg_ne_categoryMsg.symm]

/-- A request body all of whose fields are missing. -/
def emptyBody : ReqBody := ⟨.jundef, .jundef, .jundef⟩

/-- C1: for every one of the five operations, if the data-access
collaborator call invoked by the handler throws, the handler responds
with status 500 and a fixed generic error body, regardless of the kind
of error thrown.  (For POST and PUT the collaborator is invoked exactly
when validation passed.) -/
theorem router_db_throw_yields_500 (e : String) :
    getAllProductsRoute (.thrown e) = ⟨500, .jsonError "Failed to retrieve products"⟩ ∧
    getProductByIdRoute (.thrown e) = ⟨500, .jsonError "Failed to retrieve product"⟩ ∧
    deleteProductRoute (.thrown e) = ⟨500, .jsonError "Failed to delete product"⟩ ∧
    ∀ b : ReqBody, validateProduct b = .pass →
      createProductRoute b (.thrown e) =
        .ok (⟨500, .jsonError "Failed to create product"⟩, [b]) ∧
      updateProductRoute b (.thrown e) =
        .ok (⟨500, .jsonError "Failed to update product"⟩, [b]) := by
  refine ⟨rfl, rfl, rfl, fun b hb => ⟨?_, ?_⟩⟩ <;>
    simp [createProductRoute, updateProductRoute, hb]

/-- Witness for C1 at a concrete valid body and a concrete thrown error. -/
theorem router_db_throw_yields_500_witness :
    validateProduct validBody = .pass ∧
    createProductRoute validBody (.thrown "boom") =
      .ok (⟨500, .jsonError "Failed to create product"⟩, [validBody]) :=
  ⟨by decide, ((router_db_throw_yields_500 "boom").2.2.2 validBody (by decide)).1⟩

/-- C3: for every POST request whose body has a name that is a string
not trimming to empty, a positive-number price, and a category that is a
string not trimming to empty, and for which `createProduct` returns
normally, the response has status 201 and its body is exactly the record
returned by `createProduct` (which received the request body
unchanged). -/
theorem post_valid_body_created_201 (b : ReqBody) (s c : String) (q : Rat) (p : Product)
    (hn : b.name = .jstr s) (hns : jsTrimString s ≠ "")
    (hp : b.price = .jnum q) (hq : 0 < q)
    (hc : b.category = .jstr c) (hcs : jsTrimString c ≠ "") :
    createProductRoute b (.ok p) = .ok (⟨201, .jsonProduct p⟩, [b]) := by
  have hpass : validateProduct b = .pass := by
    rw [validateProduct_eq b (Or.inl ⟨s, hn⟩) (Or.inl ⟨c, hc⟩)]
    have hs : s ≠ "" := by
      intro hs0
      exact hns (by rw [hs0]; decide)
    have hc0 : c ≠ "" := by
      intro hc1
      exact hcs (by rw [hc1]; decide)
    have h1 : textFieldInvalid b.name = false := by
      simp [textFieldInvalid, hn, jsTruthy, hs, hns]
    have h3 : textFieldInvalid b.category = false := by
      simp [textFieldInvalid, hc, jsTruthy, hc0, hcs]
    have h2 : priceFieldInvalid b.price = false := by
      simp [priceFieldInvalid, hp, jsTruthy, toNumber, hq.ne', not_le.mpr hq]
    simp [(errsOf_eq_nil_iff b).mpr ⟨h1, h2, h3⟩]
  simp [createProductRoute, hpass]

/-- Witness for C3 at a concrete valid body and a concrete created
record. -/
theorem post_valid_body_created_201_witness :
    validBody.name = .jstr "Apple" ∧ jsTrimString "Apple" ≠ "" ∧
    validBody.price = .jnum 2 ∧ (0 : Rat) < 2 ∧
    validBody.category = .jstr "Food" ∧ jsTrimString "Food" ≠ "" ∧
    createProductRoute validBody (.ok sampleProduct) =
      .ok (⟨201, .jsonProduct sampleProduct⟩, [validBody]) :=
  ⟨rfl, by decide, rfl, by decide, rfl, by decide,
    post_valid_body_created_201 validBody "Apple" "Food" 2 sampleProduct rfl (by decide)
      rfl (by decide) rfl (by decide)⟩

/-- C4: `GET /products/:id` responds 404 with an error body when
`getProductById` reports the product absent, and responds 200 with the
product as the body when it returns a product. -/
theorem get_by_id_404_or_found :
    getProductByIdRoute (.ok none) = ⟨404, .jsonError "Product not found"⟩ ∧
    ∀ p : Product, getProductByIdRoute (.ok (some p)) = ⟨200, .jsonProduct p⟩ :=
  ⟨rfl, fun _ => rfl⟩

/-- C5: under the collaborator contract that `deleteProduct(id)` succeeds
and removes the record exactly when the id is present, two successive
DELETE requests for an id present in the store respond 204 (no body) and
then 404; in general DELETE responds 204 exactly when `deleteProduct`
reports success and 404 when it does not. -/
theorem delete_twice_204_then_404 (st : List String) (id : String) (h : id ∈ st) :
    deleteTwice st id = (⟨204, .empty⟩, ⟨404, .jsonError "Product not found"⟩) ∧
    ∀ success : Bool, deleteProductRoute (.ok success) =
      if success then ⟨204, .empty⟩ else ⟨404, .jsonError "Product not found"⟩ := by
  constructor
  · have h2 : id ∉ st.filter (fun x => decide (x ≠ id)) := by simp
    simp [deleteTwice, deleteProduct, h, h2, deleteProductRoute]
  · intro success; cases success <;> rfl

/-- Witness for C5 at a concrete store and id. -/
theorem delete_twice_204_then_404_witness :
    ("p1" ∈ ["p1", "p2"]) ∧
    deleteTwice ["p1", "p2"] "p1" =
      (⟨204, .empty⟩, ⟨404, .jsonError "Product not found"⟩) :=
  ⟨by decide, (delete_twice_204_then_404 ["p1", "p2"] "p1" (by decide)).1⟩

/-- C6: for every PUT request whose body passes validation, the response
is 404 when `updateProduct` reports the product absent, and otherwise
the response body is exactly the updated product; a body that fails
validation receives 400 whatever the collaborator would do (in
particular when the id is absent), because validation runs before the
existence check and the collaborator is not consulted. -/
theorem put_validated_404_or_updated (b : ReqBody) :
    (validateProduct b = .pass →
      updateProductRoute b (.ok none) = .ok (⟨404, .jsonError "Product not found"⟩, [b]) ∧
      ∀ p : Product, updateProductRoute b (.ok (some p)) =
        .ok (⟨200, .jsonProduct p⟩, [b])) ∧
    ∀ errs : List String, validateProduct b = .badRequest errs →
      ∀ db : DbOutcome (Option Product),
        updateProductRoute b db = .ok (⟨400, .jsonErrors errs⟩, []) := by
  constructor
  · intro hb
    exact ⟨by simp [updateProductRoute, hb], fun p => by simp [updateProductRoute, hb]⟩
  · intro errs hb db
    simp [updateProductRoute, hb]

/-- Witness for C6 at a concrete valid body. -/
theorem put_validated_404_or_updated_witness :
    validateProduct validBody = .pass ∧
    updateProductRoute validBody (.ok none) =
      .ok (⟨404, .jsonError "Product not found"⟩, [validBody]) :=
  ⟨by decide, ((put_validated_404_or_updated validBody).1 (by decide)).1⟩

/-- C8: for every POST or PUT request whose body fails validation, the
400 response is produced with an empty collaborator-call trace:
`createProduct`/`updateProduct` is never invoked, whatever the
collaborator outcome would have been. -/
theorem invalid_body_no_collaborator_call (b : ReqBody) (errs : List String)
    (h : validateProduct b = .badRequest errs) :
    (∀ db : DbOutcome Product,
      createProductRoute b db = .ok (⟨400, .jsonErrors errs⟩, [])) ∧
    ∀ db : DbOutcome (Option Product),
      updateProductRoute b db = .ok (⟨400, .jsonErrors errs⟩, []) :=
  ⟨fun db => by simp [createProductRoute, h], fun db => by simp [updateProductRoute, h]⟩

/-- Witness for C8 at a concrete invalid body. -/
theorem invalid_body_no_collaborator_call_witness :
    validateProduct emptyBody = .badRequest [nameMsg, priceMsg, categoryMsg] ∧
    createProductRoute emptyBody (.ok sampleProduct) =
      .ok (⟨400, .jsonErrors [nameMsg, priceMsg, categoryMsg]⟩, []) :=
  ⟨by decide,
    (invalid_body_no_collaborator_call emptyBody [nameMsg, priceMsg, categoryMsg]
      (by decide)).1 (.ok sampleProduct)⟩

/-- C2 counterexample: a body whose price is the string "10" violates
the specification's rule that the price be a positive number (so the
claim demands a 400 listing that violation), yet the implemented
middleware lets it pass: the price check coerces the string. -/
theorem validation_spec_rules_counterexample :
    specRuleViolations stringPriceBody = [priceMsg] ∧
    validateProduct stringPriceBody = .pass := by
  decide

/-- C2 (amended): for every body whose name and category fields are each
a string or falsy (on any other field the check itself throws), the
middleware never throws; it passes exactly when the name is truthy and
does not trim to empty, the price is truthy with a numeric coercion
greater than zero, and the category is truthy and does not trim to
empty; and on failure the 400 error list contains the name, price and
category messages exactly for the violated rules, and nothing else. -/
theorem validateProduct_characterization (b : ReqBody)
    (hn : StringOrFalsy b.name) (hc : StringOrFalsy b.category) :
    validateProduct b ≠ .vthrow ∧
    (validateProduct b = .pass ↔
      (textFieldInvalid b.name = false ∧ priceFieldInvalid b.price = false ∧
        textFieldInvalid b.category = false)) ∧
    ∀ errs : List String, validateProduct b = .badRequest errs →
      errs ≠ [] ∧
      (nameMsg ∈ errs ↔ textFieldInvalid b.name = true) ∧
      (priceMsg ∈ errs ↔ priceFieldInvalid b.price = true) ∧
      (categoryMsg ∈ errs ↔ textFieldInvalid b.category = true) ∧
      ∀ m ∈ errs, m = nameMsg ∨ m = priceMsg ∨ m = categoryMsg := by
  rw [validateProduct_eq b hn hc]
  by_cases he : errsOf b = []
  · rw [if_pos he]
    refine ⟨by simp, by simp [(errsOf_eq_nil_iff b).mp he], ?_⟩
    intro errs hcontra
    cases hcontra
  · rw [if_neg he]
    refine ⟨by simp, ?_, ?_⟩
    · constructor
      · intro hcontra; cases hcontra
      · intro hall
        exact absurd ((errsOf_eq_nil_iff b).mpr hall) he
    · intro errs heq
      have herrs : errs = errsOf b := by
        injection heq with h1
        exact h1.symm
      subst herrs
      exact ⟨he, (mem_errsOf b).1, (mem_errsOf b).2.1, (mem_errsOf b).2.2.1,
        (mem_errsOf b).2.2.2⟩

/-- Witness for C2 (amended) at a concrete body with string fields. -/
theorem validateProduct_characterization_witness :
    StringOrFalsy validBody.name ∧ StringOrFalsy validBody.category ∧
    validateProduct validBody ≠ .vthrow :=
  ⟨Or.inl ⟨"Apple", rfl⟩, Or.inl ⟨"Food", rfl⟩,
    (validateProduct_characterization validBody (Or.inl ⟨"Apple", rfl⟩)
      (Or.inl ⟨"Food", rfl⟩)).1⟩

/-- Status codes of the three success responses the router produces. -/
def SuccessStatus (r : Response) : Prop :=
  r.status = 200 ∨ r.status = 201 ∨ r.status = 204

/-- The three error-response shapes of the specification: 400 with a
non-empty itemized list of validation messages, 404 not-found, or 500
with a generic message. -/
def ErrorKind (r : Response) : Prop :=
  (r.status = 400 ∧ ∃ errs, errs ≠ [] ∧
    (∀ m ∈ errs, m = nameMsg ∨ m = priceMsg ∨ m = categoryMsg) ∧
    r.body = .jsonErrors errs) ∨
  (r.status = 404 ∧ r.body = .jsonError "Product not found") ∨
  (r.status = 500 ∧ ∃ msg, r.body = .jsonError msg)

/-- An outcome that is a single response, either a success or one of the
three specified error kinds. -/
def WellFormedResponse (r : Response) : Prop := SuccessStatus r ∨ ErrorKind r

/-- C7 counterexample: a POST whose body has the number 1 as name lets a
TypeError (from `name.trim()`) escape the validation middleware, so the
route produces no response of its own: the claim that no handler lets an
exception escape is false. -/
theorem router_exception_escape_counterexample :
    createProductRoute numericNameBody (.ok sampleProduct) = .error () := rfl

/-- C7 (amended): for every request whose body has name and category
each a string or falsy, and for every collaborator behaviour, each of
the five operations produces exactly one response, and every response is
a success or one of exactly three kinds: 400 with itemized validation
messages, 404 not-found, or 500 with a generic message. -/
theorem router_response_classification (b : ReqBody)
    (hn : StringOrFalsy b.name) (hc : StringOrFalsy b.category)
    (dbL : DbOutcome (List Product)) (dbG : DbOutcome (Option Product))
    (dbC : DbOutcome Product) (dbU : DbOutcome (Option Product))
    (dbD : DbOutcome Bool) :
    WellFormedResponse (getAllProductsRoute dbL) ∧
    WellFormedResponse (getProductByIdRoute dbG) ∧
    (∃ r args, createProductRoute b dbC = .ok (r, args) ∧ WellFormedResponse r) ∧
    (∃ r args, updateProductRoute b dbU = .ok (r, args) ∧ WellFormedResponse r) ∧
    WellFormedResponse (deleteProductRoute dbD) := by
  have hv := validateProduct_eq b hn hc
  refine ⟨?_, ?_, ?_, ?_, ?_⟩
  · cases dbL with
    | ok ps => exact Or.inl (Or.inl rfl)
    | thrown e => exact Or.inr (Or.inr (Or.inr ⟨rfl, _, rfl⟩))
  · cases dbG with
    | ok po =>
      cases po with
      | none => exact Or.inr (Or.inr (Or.inl ⟨rfl, rfl⟩))
      | some p => exact Or.inl (Or.inl rfl)
    | thrown e => exact Or.inr (Or.inr (Or.inr ⟨rfl, _, rfl⟩))
  · by_cases he : errsOf b = []
    · rw [if_pos he] at hv
      cases dbC with
      | ok p =>
        exact ⟨⟨201, .jsonProduct p⟩, [b], by simp [createProductRoute, hv],
          Or.inl (Or.inr (Or.inl rfl))⟩
      | thrown e =>
        exact ⟨⟨500, .jsonError "Failed to create product"⟩, [b],
          by simp [createProductRoute, hv],
          Or.inr (Or.inr (Or.inr ⟨rfl, "Failed to create product", rfl⟩))⟩
    · rw [if_neg he] at hv
      exact ⟨⟨400, .jsonErrors (errsOf b)⟩, [],
        by simp [createProductRoute, hv],
        Or.inr (Or.inl ⟨rfl, errsOf b, he, (mem_errsOf b).2.2.2, rfl⟩)⟩
  · by_cases he : errsOf b = []
    · rw [if_pos he] at hv
      cases dbU with
      | ok po =>
        cases po with
        | none =>
          exact ⟨⟨404, .jsonError "Product not found"⟩, [b],
            by simp [updateProductRoute, hv],
            Or.inr (Or.inr (Or.inl ⟨rfl, rfl⟩))⟩
        | some p =>
          exact ⟨⟨200, .jsonProduct p⟩, [b], by simp [updateProductRoute, hv],
            Or.inl (Or.inl rfl)⟩
      | thrown e =>
        exact ⟨⟨500, .jsonError "Failed to update product"⟩, [b],
          by simp [updateProductRoute, hv],
          Or.inr (Or.inr (Or.inr ⟨rfl, "Failed to update product", rfl⟩))⟩
    · rw [if_neg he] at hv
      exact ⟨⟨400, .jsonErrors (errsOf b)⟩, [],
        by simp [updateProductRoute, hv],
        Or.inr (Or.inl ⟨rfl, errsOf b, he, (mem_errsOf b).2.2.2, rfl⟩)⟩
  · cases dbD with
    | ok success =>
      cases success with
      | false => exact Or.inr (Or.inr (Or.inl ⟨rfl, rfl⟩))
      | true => exact Or.inl (Or.inr (Or.inr rfl))
    | thrown e => exact Or.inr (Or.inr (Or.inr ⟨rfl, _, rfl⟩))

/-- Witness for C7 (amended) at concrete inputs. -/
theorem router_response_classification_witness :
    StringOrFalsy validBody.name ∧ StringOrFalsy validBody.category ∧
    WellFormedResponse (getAllProductsRoute (.ok [])) :=
  ⟨Or.inl ⟨"Apple", rfl⟩, Or.inl ⟨"Food", rfl⟩,
    (router_response_classification validBody (Or.inl ⟨"Apple", rfl⟩)
      (Or.inl ⟨"Food", rfl⟩) (.ok []) (.ok none) (.ok sampleProduct) (.ok none)
      (.ok true)).1⟩

/-- C9 counterexample: a body whose name is the whitespace-only string
" " but whose category is a truthy non-string makes the middleware throw
(from `category.trim()`): the response is not the claimed 400 with the
required-name message. -/
theorem whitespace_name_throw_counterexample :
    validateProduct blankNameBody = .vthrow := by
  decide

/-- C9 (amended): for every body whose name is a string trimming to
empty and whose category is a string or falsy, validation fails with a
400 listing the required-name message; symmetrically for a whitespace-only
category when the name is a string or falsy. -/
theorem whitespace_only_fields_rejected (b : ReqBody) :
    (∀ s : String, b.name = .jstr s → jsTrimString s = "" → StringOrFalsy b.category →
      ∃ errs, validateProduct b = .badRequest errs ∧ nameMsg ∈ errs) ∧
    ∀ s : String, b.category = .jstr s → jsTrimString s = "" → StringOrFalsy b.name →
      ∃ errs, validateProduct b = .badRequest errs ∧ categoryMsg ∈ errs := by
  constructor
  · intro s hname htrim hcat
    have hinv : textFieldInvalid b.name = true := by
      by_cases hs : s = "" <;> simp [textFieldInvalid, hname, jsTruthy, hs, htrim]
    have hmem : nameMsg ∈ errsOf b := (mem_errsOf b).1.mpr hinv
    have hne : errsOf b ≠ [] := List.ne_nil_of_mem hmem
    rw [validateProduct_eq b (Or.inl ⟨s, hname⟩) hcat, if_neg hne]
    exact ⟨errsOf b, rfl, hmem⟩
  · intro s hcat htrim hname
    have hinv : textFieldInvalid b.category = true := by
      by_cases hs : s = "" <;> simp [textFieldInvalid, hcat, jsTruthy, hs, htrim]
    have hmem : categoryMsg ∈ errsOf b := (mem_errsOf b).2.2.1.mpr hinv
    have hne : errsOf b ≠ [] := List.ne_nil_of_mem hmem
    rw [validateProduct_eq b hname (Or.inl ⟨s, hcat⟩), if_neg hne]
    exact ⟨errsOf b, rfl, hmem⟩

/-- A request body whose name is only whitespace and whose other fields
are unobjectionable. -/
def whitespaceNameBody : ReqBody := ⟨.jstr "  ", .jnum 3, .jstr "Food"⟩

/-- Witness for C9 (amended) at a concrete whitespace-only name. -/
theorem whitespace_only_fields_rejected_witness :
    whitespaceNameBody.name = .jstr "  " ∧ jsTrimString "  " = "" ∧
    StringOrFalsy whitespaceNameBody.category ∧
    ∃ errs, validateProduct whitespaceNameBody = .badRequest errs ∧ nameMsg ∈ errs :=
  ⟨rfl, by decide, Or.inl ⟨"Food", rfl⟩,
    (whitespace_only_fields_rejected whitespaceNameBody).1 "  " rfl (by decide)
      (Or.inl ⟨"Food", rfl⟩)⟩

/-- C10: there is a request body whose price is the numeric string "10"
that passes validation, so `createProduct` is called with that body
unchanged (and the request succeeds with 201); in general the price
check accepts exactly the truthy values whose numeric coercion is a
number greater than zero. -/
theorem numeric_string_price_passes :
    (∃ b : ReqBody, b.price = .jstr "10" ∧ validateProduct b = .pass ∧
      ∀ p : Product, createProductRoute b (.ok p) = .ok (⟨201, .jsonProduct p⟩, [b])) ∧
    ∀ v : JVal, checkPrice v = [] ↔
      (jsTruthy v = true ∧ ∃ q : Rat, toNumber v = some q ∧ 0 < q) := by
  constructor
  · refine ⟨stringPriceBody, rfl, by decide, fun p => ?_⟩
    have hpass : validateProduct stringPriceBody = .pass := by decide
    simp [createProductRoute, hpass]
  · intro v
    by_cases ht : jsTruthy v = false
    · simp [checkPrice, ht, priceMsg]
    · have ht1 : jsTruthy v = true := by revert ht; cases jsTruthy v <;> simp
      cases hnum : toNumber v with
      | none => simp [checkPrice, ht1, hnum, priceMsg]
      | some q =>
        by_cases hq : q ≤ 0 <;>
          simp [checkPrice, ht1, hnum, hq, priceMsg, not_le, lt_of_not_le]

end ProductsRouter
